import Mathlib

/-!
Verification of the PeopleSync API social-messaging core.

The development shallowly embeds the Express/Mongoose routers of the
repository (friends, chats, groups, messages) as pure functions over an
explicit store.  Records are keyed by natural-number IDs standing for
MongoDB ObjectIds; collections are association lists; each endpoint
handler becomes a function returning the HTTP-level outcome together
with the store it leaves behind.
-/

namespace PeopleSync

/-- Association-list lookup, modelling findById on a Mongo collection. -/
def alookup {α : Type} (k : Nat) : List (Nat × α) → Option α
  | [] => none
  | (k2, v) :: rest => if k = k2 then some v else alookup k rest

/-- Association-list insert/overwrite, modelling a save of a document under its id. -/
def ainsert {α : Type} (k : Nat) (v : α) : List (Nat × α) → List (Nat × α)
  | [] => [(k, v)]
  | (k2, v2) :: rest => if k = k2 then (k, v) :: rest else (k2, v2) :: ainsert k v rest

/-- A user record (src/unnamed/part_001, the user schema with groups). -/
structure User where
  username : String
  connected : Bool := false
  friends : List Nat := []
  friendRequests : List Nat := []
  groups : List Nat := []
deriving Repr, DecidableEq

/-- A chat record (src/api/schema/chat.js). -/
structure Chat where
  participants : List Nat
  messages : List Nat := []
deriving Repr, DecidableEq

/-- A group record (src/unnamed/part_002, the group schema). -/
structure Group where
  name : String
  participants : List Nat
  messages : List Nat := []
deriving Repr, DecidableEq

/-- A message record (the message schema embedded in src/api/schema/user.js part). -/
structure Message where
  sender : Nat
  content : String
  isRead : Bool := false
  chat : Option Nat := none
  group : Option Nat := none
deriving Repr, DecidableEq

/-- The persistent store: the four Mongo collections. -/
structure Store where
  users : List (Nat × User) := []
  chats : List (Nat × Chat) := []
  groups : List (Nat × Group) := []
  messages : List (Nat × Message) := []
deriving Repr, DecidableEq

/-- HTTP-level failure outcomes used by the routers. -/
inductive ApiError where
  | badRequest
  | unauthorized
  | forbidden
  | notFound
  | conflict
  | internalError
deriving Repr, DecidableEq

/-- findOne on username, first match in collection order (username is unique-indexed). -/
def findByUsername (users : List (Nat × User)) (uname : String) : Option (Nat × User) :=
  match users with
  | [] => none
  | (k, u) :: rest => if u.username = uname then some (k, u) else findByUsername rest uname

/-- POST /users/register (src/api/router/users/register.js lines 43-63): missing
field gives 400; duplicate username makes save throw, answered 409; otherwise a
fresh user document is stored under a store-generated id. -/
def registerUser (s : Store) (uname pw : String) (newId : Nat) :
    Except ApiError Unit × Store :=
  if uname = "" ∨ pw = "" then (.error .badRequest, s)
  else
    match findByUsername s.users uname with
    | some _ => (.error .conflict, s)
    | none => (.ok (), { s with users := ainsert newId { username := uname } s.users })

/-- POST /users/friends (src/api/router/users/friends.js lines 138-162): resolve
target by username (404 if absent), 409 if already a friend, else push the actor
onto the target's friendRequests and save the target.  A missing actor record
makes the handler throw on user.friends, caught as 500. -/
def sendFriendRequest (s : Store) (actorId : Nat) (uname : String) :
    Except ApiError (String × Nat) × Store :=
  if uname = "" then (.error .badRequest, s)
  else
    match findByUsername s.users uname with
    | none => (.error .notFound, s)
    | some (fid, friend) =>
      match alookup actorId s.users with
      | none => (.error .internalError, s)
      | some user =>
        if fid ∈ user.friends then (.error .conflict, s)
        else
          let friend2 := { friend with friendRequests := friend.friendRequests ++ [actorId] }
          (.ok (friend.username, fid), { s with users := ainsert fid friend2 s.users })

/-- DELETE /users/friends/:username (src/api/router/users/friends.js lines
213-234): filters each side out of the other's friends list and saves the
target document, then the actor document. -/
def removeFriend (s : Store) (actorId : Nat) (uname : String) :
    Except ApiError (String × Nat) × Store :=
  if uname = "" then (.error .badRequest, s)
  else
    match findByUsername s.users uname with
    | none => (.error .notFound, s)
    | some (fid, friend) =>
      match alookup actorId s.users with
      | none => (.error .internalError, s)
      | some user =>
        let user2 := { user with friends := user.friends.filter (fun x => x ≠ fid) }
        let friend2 := { friend with friends := friend.friends.filter (fun x => x ≠ actorId) }
        let s1 := { s with users := ainsert fid friend2 s.users }
        (.ok (friend.username, fid), { s1 with users := ainsert actorId user2 s1.users })

/-- PUT /users/friends/accept (src/api/router/users/friends.js lines 290-313):
resolve target by username (404 if absent); remove every occurrence of the
target from the actor's friendRequests, push the target onto the actor's
friends and the actor onto the target's friends; save target then actor. -/
def acceptFriendRequest (s : Store) (actorId : Nat) (uname : String) :
    Except ApiError (String × Nat) × Store :=
  if uname = "" then (.error .badRequest, s)
  else
    match findByUsername s.users uname with
    | none => (.error .notFound, s)
    | some (fid, friend) =>
      match alookup actorId s.users with
      | none => (.error .internalError, s)
      | some user =>
        let user2 := { user with
          friendRequests := user.friendRequests.filter (fun x => x ≠ fid),
          friends := user.friends ++ [fid] }
        let friend2 := { friend with friends := friend.friends ++ [actorId] }
        let s1 := { s with users := ainsert fid friend2 s.users }
        (.ok (friend.username, fid), { s1 with users := ainsert actorId user2 s1.users })

/-- PUT /users/friends/reject (src/api/router/users/friends.js lines 369-388):
resolve target (404 if absent); remove every occurrence of the target from the
actor's friendRequests; save the actor only. -/
def rejectFriendRequest (s : Store) (actorId : Nat) (uname : String) :
    Except ApiError (String × Nat) × Store :=
  if uname = "" then (.error .badRequest, s)
  else
    match findByUsername s.users uname with
    | none => (.error .notFound, s)
    | some (fid, friend) =>
      match alookup actorId s.users with
      | none => (.error .internalError, s)
      | some user =>
        let user2 := { user with friendRequests := user.friendRequests.filter (fun x => x ≠ fid) }
        (.ok (friend.username, fid), { s with users := ainsert actorId user2 s.users })

/-- POST /chats (src/api/router/users/register.js chats part, lines 140-154):
400 unless the requester appears in the given participants list, otherwise a
new chat with exactly those participants is saved.  No size or distinctness
check is performed. -/
def createChat (s : Store) (requester : Nat) (participants : List Nat) (newId : Nat) :
    Except ApiError Chat × Store :=
  if requester ∈ participants then
    let ch : Chat := { participants := participants }
    (.ok ch, { s with chats := ainsert newId ch s.chats })
  else (.error .badRequest, s)

/-- One message of a chat enriched by populate with its sender document. -/
def enrich (s : Store) (m : Message) : Message × Option User :=
  (m, alookup m.sender s.users)

/-- GET /chats/:chatId/messages (src/api/router/users/register.js chats part,
lines 244-260): a single combined guard answers 403 when the chat is absent or
the requester is not among its participants; otherwise the chat's messages are
returned in the order of its message list, each populated with its sender.
Array populate drops ids that resolve to no document. -/
def listMessages (s : Store) (actor : Nat) (chatId : Nat) :
    Except ApiError (List (Message × Option User)) :=
  match alookup chatId s.chats with
  | none => .error .forbidden
  | some ch =>
    if actor ∈ ch.participants then
      .ok (ch.messages.filterMap (fun mid => (alookup mid s.messages).map (enrich s)))
    else .error .forbidden

/-- POST /groups (src/unnamed/part_000 lines 93-109): saves a new group (an
empty name fails the schema's required validator, answered 500) and pushes the
group id onto the groups list of every stored user in the participants list. -/
def createGroup (s : Store) (nm : String) (participants : List Nat) (newId : Nat) :
    Except ApiError Group × Store :=
  if nm = "" then (.error .internalError, s)
  else
    let gr : Group := { name := nm, participants := participants }
    let users2 := s.users.map (fun p =>
      if p.1 ∈ participants then (p.1, { p.2 with groups := p.2.groups ++ [newId] }) else p)
    (.ok gr, { s with groups := ainsert newId gr s.groups, users := users2 })

/-- POST /groups/:groupId/users (src/unnamed/part_000 lines 209-236): 403 when
the group is absent or the requester is not a participant; 400 when the target
user already is one; otherwise the target is pushed onto the group's
participants and the group id onto the target user's groups. -/
def addGroupMember (s : Store) (actor groupId userId : Nat) :
    Except ApiError Group × Store :=
  match alookup groupId s.groups with
  | none => (.error .forbidden, s)
  | some gr =>
    if actor ∈ gr.participants then
      if userId ∈ gr.participants then (.error .badRequest, s)
      else
        let gr2 := { gr with participants := gr.participants ++ [userId] }
        let s1 := { s with groups := ainsert groupId gr2 s.groups }
        match alookup userId s1.users with
        | some u =>
          (.ok gr2, { s1 with users := ainsert userId { u with groups := u.groups ++ [groupId] } s1.users })
        | none => (.ok gr2, s1)
    else (.error .forbidden, s)

/-- DELETE /groups/:groupId/users/:userId (src/unnamed/part_000 lines 329-355):
403 when the group is absent or the requester is not a participant; 400 when
the target is not a member; otherwise the target is pulled from the group's
participants and the group id is pulled from the target user's groups. -/
def removeGroupMember (s : Store) (actor groupId userId : Nat) :
    Except ApiError Group × Store :=
  match alookup groupId s.groups with
  | none => (.error .forbidden, s)
  | some gr =>
    if actor ∈ gr.participants then
      if userId ∈ gr.participants then
        let gr2 := { gr with participants := gr.participants.filter (fun x => x ≠ userId) }
        let s1 := { s with groups := ainsert groupId gr2 s.groups }
        match alookup userId s1.users with
        | some u =>
          (.ok gr2, { s1 with users := ainsert userId { u with groups := u.groups.filter (fun x => x ≠ groupId) } s1.users })
        | none => (.ok gr2, s1)
      else (.error .badRequest, s)
    else (.error .forbidden, s)

/-- POST /messages (src/api/router/messages/index.js lines 96-126): the handler
performs no destination-exclusivity check.  It saves the message (an empty
content fails the schema's required validator, answered 500), then pushes its
id onto the chat's message list when a chat id was given, else onto the group's
when a group id was given (findByIdAndUpdate on an absent id is a no-op),
broadcasts, and answers 201 with the populated message. -/
def postMessage (s : Store) (actor : Nat) (content : String)
    (chat group : Option Nat) (newId : Nat) :
    Except ApiError Message × Store :=
  if content = "" then (.error .internalError, s)
  else
    let m : Message := { sender := actor, content := content, chat := chat, group := group }
    let s1 := { s with messages := ainsert newId m s.messages }
    match chat with
    | some c =>
      match alookup c s1.chats with
      | some ch => (.ok m, { s1 with chats := ainsert c { ch with messages := ch.messages ++ [newId] } s1.chats })
      | none => (.ok m, s1)
    | none =>
      match group with
      | some g =>
        match alookup g s1.groups with
        | some gr => (.ok m, { s1 with groups := ainsert g { gr with messages := gr.messages ++ [newId] } s1.groups })
        | none => (.ok m, s1)
      | none => (.ok m, s1)

/-- GET /messages/:messageId (src/api/router/messages/index.js lines 210-219):
findById followed by res.json of the result with no null check, so an absent
id is answered 200 with a null body, modelled as ok none. -/
def getMessage (s : Store) (messageId : Nat) :
    Except ApiError (Option (Message × Option User)) :=
  match alookup messageId s.messages with
  | none => .ok none
  | some m => .ok (some (enrich s m))

/-- PUT /messages/:messageId (src/api/router/messages/index.js lines 330-340):
findByIdAndUpdate of isRead; an absent id updates nothing and is answered 200
with a null body. -/
def setReadStatus (s : Store) (messageId : Nat) (isRead : Bool) :
    Except ApiError (Option Message) × Store :=
  match alookup messageId s.messages with
  | none => (.ok none, s)
  | some m =>
    let m2 := { m with isRead := isRead }
    (.ok (some m2), { s with messages := ainsert messageId m2 s.messages })

/-- Every store-mutating endpoint the core exposes, with the fresh ids the
store would generate for inserts. -/
inductive Op where
  | register (uname pw : String) (newId : Nat)
  | sendFR (actor : Nat) (uname : String)
  | removeFr (actor : Nat) (uname : String)
  | acceptFR (actor : Nat) (uname : String)
  | rejectFR (actor : Nat) (uname : String)
  | mkChat (requester : Nat) (participants : List Nat) (newId : Nat)
  | mkGroup (nm : String) (participants : List Nat) (newId : Nat)
  | addMember (actor groupId userId : Nat)
  | removeMember (actor groupId userId : Nat)
  | postMsg (actor : Nat) (content : String) (chat group : Option Nat) (newId : Nat)
  | setRead (messageId : Nat) (isRead : Bool)
deriving Repr, DecidableEq

/-- The store an endpoint leaves behind, whether it succeeds or fails. -/
def applyOp (s : Store) : Op → Store
  | .register uname pw newId => (registerUser s uname pw newId).2
  | .sendFR actor uname => (sendFriendRequest s actor uname).2
  | .removeFr actor uname => (removeFriend s actor uname).2
  | .acceptFR actor uname => (acceptFriendRequest s actor uname).2
  | .rejectFR actor uname => (rejectFriendRequest s actor uname).2
  | .mkChat requester participants newId => (createChat s requester participants newId).2
  | .mkGroup nm participants newId => (createGroup s nm participants newId).2
  | .addMember actor groupId userId => (addGroupMember s actor groupId userId).2
  | .removeMember actor groupId userId => (removeGroupMember s actor groupId userId).2
  | .postMsg actor content chat group newId => (postMessage s actor content chat group newId).2
  | .setRead messageId isRead => (setReadStatus s messageId isRead).2

/-- A store-generated id is fresh: an insert of a new chat never lands on an
existing key (MongoDB ObjectIds are globally unique). -/
def freshFor (s : Store) : Op → Bool
  | .mkChat _ _ newId => alookup newId s.chats = none
  | _ => true

theorem alookup_ainsert_self {α : Type} (k : Nat) (v : α) (l : List (Nat × α)) :
    alookup k (ainsert k v l) = some v := by
  induction l with
  | nil => simp [ainsert, alookup]
  | cons hd tl ih =>
    by_cases h : k = hd.1
    · simp [ainsert, alookup, h]
    · simp [ainsert, alookup, h, ih]

theorem alookup_ainsert_ne {α : Type} (k k2 : Nat) (v : α) (l : List (Nat × α))
    (h : k ≠ k2) : alookup k (ainsert k2 v l) = alookup k l := by
  induction l with
  | nil => simp [ainsert, alookup, h]
  | cons hd tl ih =>
    by_cases h2 : k2 = hd.1
    · subst h2
      simp [ainsert, alookup, h]
    · by_cases h3 : k = hd.1
      · simp [ainsert, alookup, h2, h3]
      · simp [ainsert, alookup, h2, h3, ih]

instance {ε α : Type} [DecidableEq ε] [DecidableEq α] : DecidableEq (Except ε α) := fun x y =>
  match x, y with
  | .ok a, .ok b =>
    if h : a = b then isTrue (by rw [h]) else isFalse (fun hh => h (Except.ok.inj hh))
  | .error e, .error f =>
    if h : e = f then isTrue (by rw [h]) else isFalse (fun hh => h (Except.error.inj hh))
  | .ok _, .error _ => isFalse (fun hh => Except.noConfusion hh)
  | .error _, .ok _ => isFalse (fun hh => Except.noConfusion hh)

/-- Demo user 1. -/
def alice : User := { username := "alice" }

/-- Demo user 2, with a duplicated pending request from user 1. -/
def bob : User := { username := "bob", friendRequests := [1, 1] }

/-- Demo chat between users 1 and 2. -/
def demoChat : Chat := { participants := [1, 2] }

/-- Demo group whose only participant is user 1. -/
def demoGroup : Group := { name := "demo", participants := [1] }

/-- A small demo store used to evaluate the endpoints on concrete input. -/
def s0 : Store :=
  { users := [(1, alice), (2, bob)], chats := [(10, demoChat)], groups := [(20, demoGroup)] }

/-- A demo store in which users 1 and 2 already are friends. -/
def s10 : Store :=
  { users := [(1, { username := "alice", friends := [2] }),
              (2, { username := "bob", friends := [1] })] }

/-- C1: the claim says postMessage with both destinations, or with neither,
fails BadRequest and persists no Message.  The handler performs no such check:
with both a chat id and a group id the message is saved (with both fields set)
and the call succeeds, and with neither the message is saved as well — the
code contradicts its own swagger documentation of a 400 response. -/
theorem postMessage_missing_destination_check :
    (postMessage s0 1 "hi" (some 10) (some 20) 30).1 =
      .ok { sender := 1, content := "hi", chat := some 10, group := some 20 } ∧
    (postMessage s0 1 "hi" (some 10) (some 20) 30).1 ≠ .error .badRequest ∧
    alookup 30 (postMessage s0 1 "hi" (some 10) (some 20) 30).2.messages =
      some { sender := 1, content := "hi", chat := some 10, group := some 20 } ∧
    (postMessage s0 1 "yo" none none 31).1 = .ok { sender := 1, content := "yo" } ∧
    (postMessage s0 1 "yo" none none 31).1 ≠ .error .badRequest ∧
    alookup 31 (postMessage s0 1 "yo" none none 31).2.messages =
      some { sender := 1, content := "yo" } := by
  refine ⟨rfl, by decide, rfl, rfl, by decide, rfl⟩

/-- C9: the claim says getMessage of an absent id fails NotFound.  The handler
has no null check: findById of an absent id yields null and res.json answers
200 with a null body (ok none), contradicting the route's swagger
documentation of a 404 response. -/
theorem getMessage_absent_ok_none :
    getMessage s0 5 = .ok none ∧ getMessage s0 5 ≠ .error .notFound := by
  refine ⟨rfl, by decide⟩

/-- C3 counterexample: on an absent chat, listMessages answers Forbidden, not
NotFound as the claim states. -/
theorem listMessages_absent_chat_forbidden_cex :
    listMessages s0 1 99 = .error .forbidden ∧ listMessages s0 1 99 ≠ .error .notFound := by
  refine ⟨rfl, by decide⟩

/-- C4 counterexample: createChat with the single-element participant list [1]
requested by user 1 — fewer than 2 distinct participants — succeeds and
persists the chat instead of failing BadRequest. -/
theorem createChat_singleton_cex :
    (createChat s0 1 [1] 11).1 = .ok { participants := [1] } ∧
    (createChat s0 1 [1] 11).1 ≠ .error .badRequest ∧
    alookup 11 (createChat s0 1 [1] 11).2.chats = some { participants := [1] } := by
  refine ⟨rfl, by decide, rfl⟩

/-- C6 counterexample: user 1 is a participant of group 20 and removes
themselves; the call succeeds and the stored participant set becomes empty,
so a member can in fact remove themselves through the exposed contract. -/
theorem removeGroupMember_self_cex :
    (removeGroupMember s0 1 20 1).1 = .ok { name := "demo", participants := [] } ∧
    alookup 20 (removeGroupMember s0 1 20 1).2.groups =
      some { name := "demo", participants := [] } := by
  refine ⟨rfl, rfl⟩

/-- C2: whenever acceptFriendRequest succeeds (the actor record exists and the
username resolves), the target is in the actor's stored friends list and the
actor is in the target's stored friends list: the symmetric friendship link is
established and both records are persisted. -/
theorem acceptFriendRequest_symmetric (s : Store) (a : Nat) (uname : String)
    (fid : Nat) (friend user : User)
    (hu : uname ≠ "")
    (hfriend : findByUsername s.users uname = some (fid, friend))
    (huser : alookup a s.users = some user) :
    (acceptFriendRequest s a uname).1 = .ok (friend.username, fid) ∧
    (∃ u2, alookup a (acceptFriendRequest s a uname).2.users = some u2 ∧ fid ∈ u2.friends) ∧
    (∃ f2, alookup fid (acceptFriendRequest s a uname).2.users = some f2 ∧ a ∈ f2.friends) := by
  unfold acceptFriendRequest
  rw [if_neg hu, hfriend, huser]
  refine ⟨rfl, ?_, ?_⟩
  · refine ⟨_, alookup_ainsert_self a _ _, ?_⟩
    simp
  · by_cases hfa : fid = a
    · subst hfa
      refine ⟨_, alookup_ainsert_self _ _ _, ?_⟩
      simp
    · refine ⟨{ friend with friends := friend.friends ++ [a] }, ?_, by simp⟩
      show alookup fid (ainsert a _ (ainsert fid _ s.users)) = _
      rw [alookup_ainsert_ne fid a _ _ hfa]
      exact alookup_ainsert_self fid _ _

/-- C2 witness: user 1 accepts the request from user 2 in the demo store. -/
theorem acceptFriendRequest_symmetric_witness :
    (acceptFriendRequest s0 1 "bob").1 = .ok ("bob", 2) ∧
    (∃ u2, alookup 1 (acceptFriendRequest s0 1 "bob").2.users = some u2 ∧ 2 ∈ u2.friends) ∧
    (∃ f2, alookup 2 (acceptFriendRequest s0 1 "bob").2.users = some f2 ∧ 1 ∈ f2.friends) :=
  acceptFriendRequest_symmetric s0 1 "bob" 2 bob alice (by decide) rfl rfl

/-- C10: acceptFriendRequest requires nothing beyond the target resolving (and
the actor record existing): it succeeds and unconditionally appends the target
to the actor's friends and the actor to the target's friends — no pending
request is required, and if the target is already a friend, the stored list
ends up holding a duplicate entry. -/
theorem acceptFriendRequest_unconditional (s : Store) (a : Nat) (uname : String)
    (fid : Nat) (friend user : User)
    (hu : uname ≠ "")
    (hfriend : findByUsername s.users uname = some (fid, friend))
    (huser : alookup a s.users = some user) :
    (acceptFriendRequest s a uname).1 = .ok (friend.username, fid) ∧
    alookup a (acceptFriendRequest s a uname).2.users =
      some { user with friendRequests := user.friendRequests.filter (fun x => x ≠ fid),
                       friends := user.friends ++ [fid] } ∧
    (a ≠ fid → alookup fid (acceptFriendRequest s a uname).2.users =
      some { friend with friends := friend.friends ++ [a] }) ∧
    (fid ∈ user.friends →
      ∃ u2, alookup a (acceptFriendRequest s a uname).2.users = some u2 ∧
        2 ≤ u2.friends.count fid) := by
  unfold acceptFriendRequest
  rw [if_neg hu, hfriend, huser]
  refine ⟨rfl, alookup_ainsert_self a _ _, ?_, ?_⟩
  · intro hafid
    show alookup fid (ainsert a _ (ainsert fid _ s.users)) = _
    rw [alookup_ainsert_ne fid a _ _ (fun h => hafid h.symm)]
    exact alookup_ainsert_self fid _ _
  · intro hmem
    refine ⟨_, alookup_ainsert_self a _ _, ?_⟩
    show 2 ≤ (user.friends ++ [fid]).count fid
    have h1 : 1 ≤ user.friends.count fid := List.one_le_count_iff.mpr hmem
    have h2 : List.count fid [fid] = 1 := List.count_singleton_self fid
    have h3 := List.count_append fid user.friends [fid]
    omega

/-- C10 witness: users 1 and 2 are already friends and no request is pending;
accepting still succeeds and leaves user 2 twice in user 1's friends list. -/
theorem acceptFriendRequest_unconditional_witness :
    (acceptFriendRequest s10 1 "bob").1 = .ok ("bob", 2) ∧
    alookup 1 (acceptFriendRequest s10 1 "bob").2.users =
      some { username := "alice", friends := [2] ++ [2] } ∧
    ((1 : Nat) ≠ 2 → alookup 2 (acceptFriendRequest s10 1 "bob").2.users =
      some { username := "bob", friends := [1] ++ [1] }) ∧
    ((2 : Nat) ∈ [(2 : Nat)] →
      ∃ u2, alookup 1 (acceptFriendRequest s10 1 "bob").2.users = some u2 ∧
        2 ≤ u2.friends.count 2) := by
  have h := acceptFriendRequest_unconditional s10 1 "bob" 2
    { username := "bob", friends := [1] } { username := "alice", friends := [2] }
    (by decide) rfl rfl
  exact h

/-- C7: after acceptFriendRequest or rejectFriendRequest succeeds, the target
appears zero times in the actor's stored friendRequests, no matter how many
times it appeared before: both handlers filter out every occurrence. -/
theorem friendRequests_cleared (s : Store) (a : Nat) (uname : String)
    (fid : Nat) (friend user : User)
    (hu : uname ≠ "")
    (hfriend : findByUsername s.users uname = some (fid, friend))
    (huser : alookup a s.users = some user) :
    (∃ u2, alookup a (acceptFriendRequest s a uname).2.users = some u2 ∧
      u2.friendRequests.count fid = 0) ∧
    (∃ u2, alookup a (rejectFriendRequest s a uname).2.users = some u2 ∧
      u2.friendRequests.count fid = 0) := by
  constructor
  · unfold acceptFriendRequest
    rw [if_neg hu, hfriend, huser]
    refine ⟨_, alookup_ainsert_self a _ _, ?_⟩
    show (user.friendRequests.filter (fun x => x ≠ fid)).count fid = 0
    rw [List.count_eq_zero]
    simp
  · unfold rejectFriendRequest
    rw [if_neg hu, hfriend, huser]
    refine ⟨_, alookup_ainsert_self a _ _, ?_⟩
    show (user.friendRequests.filter (fun x => x ≠ fid)).count fid = 0
    rw [List.count_eq_zero]
    simp

/-- C7 witness: user 2 holds the duplicated pending request [1, 1] from user 1;
after accepting or rejecting, user 1 appears zero times in it. -/
theorem friendRequests_cleared_witness :
    (∃ u2, alookup 2 (acceptFriendRequest s0 2 "alice").2.users = some u2 ∧
      u2.friendRequests.count 1 = 0) ∧
    (∃ u2, alookup 2 (rejectFriendRequest s0 2 "alice").2.users = some u2 ∧
      u2.friendRequests.count 1 = 0) :=
  friendRequests_cleared s0 2 "alice" 1 alice bob (by decide) rfl rfl

/-- C5: for an existing group and an actor outside its participant set, both
membership operations answer Forbidden and return the store untouched. -/
theorem groupMembership_forbidden_nonparticipant (s : Store) (actor groupId userId : Nat)
    (gr : Group)
    (hg : alookup groupId s.groups = some gr)
    (hn : actor ∉ gr.participants) :
    addGroupMember s actor groupId userId = (.error .forbidden, s) ∧
    removeGroupMember s actor groupId userId = (.error .forbidden, s) := by
  constructor
  · unfold addGroupMember
    rw [hg]
    dsimp only
    rw [if_neg hn]
  · unfold removeGroupMember
    rw [hg]
    dsimp only
    rw [if_neg hn]

/-- C5 witness: user 2 is not a participant of group 20; both operations on it
fail Forbidden and leave the demo store unchanged. -/
theorem groupMembership_forbidden_nonparticipant_witness :
    addGroupMember s0 2 20 1 = (.error .forbidden, s0) ∧
    removeGroupMember s0 2 20 1 = (.error .forbidden, s0) :=
  groupMembership_forbidden_nonparticipant s0 2 20 1 demoGroup rfl (by decide)

/-- C3 amended: listMessages answers Forbidden both when the chat is absent and
when the actor is not among its participants (a single combined guard — an
absent chat is not reported NotFound); on success it returns the chat's
messages in the append order of its message list, each enriched with its
sender's record. -/
theorem listMessages_spec (s : Store) (actor chatId : Nat) :
    (alookup chatId s.chats = none → listMessages s actor chatId = .error .forbidden) ∧
    (∀ ch, alookup chatId s.chats = some ch → actor ∉ ch.participants →
      listMessages s actor chatId = .error .forbidden) ∧
    (∀ ch, alookup chatId s.chats = some ch → actor ∈ ch.participants →
      listMessages s actor chatId =
        .ok (ch.messages.filterMap (fun mid => (alookup mid s.messages).map (enrich s)))) := by
  refine ⟨?_, ?_, ?_⟩
  · intro h
    unfold listMessages
    rw [h]
  · intro ch h hn
    unfold listMessages
    rw [h]
    simp [hn]
  · intro ch h hm
    unfold listMessages
    rw [h]
    simp [hm]

/-- C3 witness: in the demo store, chat 99 is absent (Forbidden), user 3 is not
a participant of chat 10 (Forbidden), and participant 1 reads chat 10's empty
message list. -/
theorem listMessages_spec_witness :
    listMessages s0 3 99 = .error .forbidden ∧
    listMessages s0 3 10 = .error .forbidden ∧
    listMessages s0 1 10 = .ok [] :=
  ⟨(listMessages_spec s0 3 99).1 rfl,
   (listMessages_spec s0 3 10).2.1 demoChat rfl (by decide),
   (listMessages_spec s0 1 10).2.2 demoChat rfl (by decide)⟩

/-- C4 amended: createChat fails BadRequest exactly when the requester is not
in the given participant list; no minimum-size or distinctness check exists,
so any list containing the requester — even a one-element list — creates and
persists a Chat with exactly those participants. -/
theorem createChat_spec (s : Store) (requester : Nat) (ps : List Nat) (newId : Nat) :
    (requester ∉ ps → createChat s requester ps newId = (.error .badRequest, s)) ∧
    (requester ∈ ps → createChat s requester ps newId =
      (.ok { participants := ps },
       { s with chats := ainsert newId { participants := ps } s.chats })) := by
  constructor
  · intro h
    unfold createChat
    rw [if_neg h]
  · intro h
    unfold createChat
    rw [if_pos h]

/-- C4 witness: user 3 absent from [1, 2] is rejected; the one-element list [1]
requested by user 1 is accepted and stored. -/
theorem createChat_spec_witness :
    createChat s0 3 [1, 2] 12 = (.error .badRequest, s0) ∧
    createChat s0 1 [1] 12 =
      (.ok { participants := [1] },
       { s0 with chats := ainsert 12 { participants := [1] } s0.chats }) :=
  ⟨(createChat_spec s0 3 [1, 2] 12).1 (by decide),
   (createChat_spec s0 1 [1] 12).2 (by decide)⟩

/-- C6 amended: a current participant can remove themselves: with u in the
group's participant set, removeGroupMember(u, G, u) succeeds and the stored
participant set no longer contains u. -/
theorem removeGroupMember_self (s : Store) (g u : Nat) (gr : Group)
    (hg : alookup g s.groups = some gr)
    (hu : u ∈ gr.participants) :
    (removeGroupMember s u g u).1 =
      .ok { gr with participants := gr.participants.filter (fun x => x ≠ u) } ∧
    ∃ gr2, alookup g (removeGroupMember s u g u).2.groups = some gr2 ∧
      u ∉ gr2.participants := by
  unfold removeGroupMember
  rw [hg]
  dsimp only
  rw [if_pos hu, if_pos hu]
  cases halo : alookup u s.users with
  | none =>
    dsimp only
    refine ⟨rfl, _, alookup_ainsert_self g _ _, ?_⟩
    simp
  | some u2 =>
    dsimp only
    refine ⟨rfl, _, alookup_ainsert_self g _ _, ?_⟩
    simp

/-- C6 amended witness: user 1, sole participant of group 20, removes
themselves successfully. -/
theorem removeGroupMember_self_witness :
    (removeGroupMember s0 1 20 1).1 =
      .ok { demoGroup with participants := demoGroup.participants.filter (fun x => x ≠ 1) } ∧
    ∃ gr2, alookup 20 (removeGroupMember s0 1 20 1).2.groups = some gr2 ∧
      1 ∉ gr2.participants :=
  removeGroupMember_self s0 20 1 demoGroup rfl (by decide)

theorem registerUser_chats (s : Store) (u p : String) (id : Nat) :
    (registerUser s u p id).2.chats = s.chats := by
  unfold registerUser
  repeat' split
  all_goals rfl

theorem sendFriendRequest_chats (s : Store) (a : Nat) (uname : String) :
    (sendFriendRequest s a uname).2.chats = s.chats := by
  unfold sendFriendRequest
  repeat' split
  all_goals rfl

theorem removeFriend_chats (s : Store) (a : Nat) (uname : String) :
    (removeFriend s a uname).2.chats = s.chats := by
  unfold removeFriend
  repeat' split
  all_goals rfl

theorem acceptFriendRequest_chats (s : Store) (a : Nat) (uname : String) :
    (acceptFriendRequest s a uname).2.chats = s.chats := by
  unfold acceptFriendRequest
  repeat' split
  all_goals rfl

theorem rejectFriendRequest_chats (s : Store) (a : Nat) (uname : String) :
    (rejectFriendRequest s a uname).2.chats = s.chats := by
  unfold rejectFriendRequest
  repeat' split
  all_goals rfl

theorem createGroup_chats (s : Store) (nm : String) (ps : List Nat) (id : Nat) :
    (createGroup s nm ps id).2.chats = s.chats := by
  unfold createGroup
  repeat' split
  all_goals rfl

theorem addGroupMember_chats (s : Store) (actor groupId userId : Nat) :
    (addGroupMember s actor groupId userId).2.chats = s.chats := by
  unfold addGroupMember
  repeat' split
  all_goals try rfl
  all_goals dsimp only
  all_goals repeat' split
  all_goals rfl

theorem removeGroupMember_chats (s : Store) (actor groupId userId : Nat) :
    (removeGroupMember s actor groupId userId).2.chats = s.chats := by
  unfold removeGroupMember
  repeat' split
  all_goals try rfl
  all_goals dsimp only
  all_goals repeat' split
  all_goals rfl

theorem setReadStatus_chats (s : Store) (messageId : Nat) (isRead : Bool) :
    (setReadStatus s messageId isRead).2.chats = s.chats := by
  unfold setReadStatus
  repeat' split
  all_goals rfl

theorem postMessage_chats (s : Store) (a : Nat) (content : String)
    (chat group : Option Nat) (newId c : Nat) (ch : Chat)
    (hc : alookup c s.chats = some ch) :
    ∃ ch2, alookup c (postMessage s a content chat group newId).2.chats = some ch2 ∧
      ch2.participants = ch.participants := by
  unfold postMessage
  by_cases hcont : content = ""
  · rw [if_pos hcont]
    exact ⟨ch, hc, rfl⟩
  · rw [if_neg hcont]
    dsimp only
    cases chat with
    | none =>
      cases group with
      | none => exact ⟨ch, hc, rfl⟩
      | some g =>
        dsimp only
        cases hg : alookup g s.groups with
        | none => exact ⟨ch, hc, rfl⟩
        | some gr => exact ⟨ch, hc, rfl⟩
    | some c0 =>
      dsimp only
      cases hch : alookup c0 s.chats with
      | none => exact ⟨ch, hc, rfl⟩
      | some ch0 =>
        dsimp only
        by_cases hcc : c = c0
        · subst hcc
          rw [hc] at hch
          have hinj : ch = ch0 := Option.some.inj hch
          refine ⟨_, alookup_ainsert_self c _ _, ?_⟩
          rw [hinj]
        · refine ⟨ch, ?_, rfl⟩
          rw [alookup_ainsert_ne c c0 _ _ hcc]
          exact hc

theorem createChat_chats (s : Store) (r : Nat) (ps : List Nat) (newId c : Nat) (ch : Chat)
    (hfresh : alookup newId s.chats = none) (hc : alookup c s.chats = some ch) :
    ∃ ch2, alookup c (createChat s r ps newId).2.chats = some ch2 ∧
      ch2.participants = ch.participants := by
  unfold createChat
  by_cases hr : r ∈ ps
  · rw [if_pos hr]
    dsimp only
    have hne : c ≠ newId := by
      intro h
      rw [h, hfresh] at hc
      exact Option.noConfusion hc
    refine ⟨ch, ?_, rfl⟩
    rw [alookup_ainsert_ne c newId _ _ hne]
    exact hc
  · rw [if_neg hr]
    exact ⟨ch, hc, rfl⟩

/-- C8: for every chat stored before any exposed operation runs (with the
store generating a genuinely fresh id for inserts), the chat is still stored
afterwards with the same participant set: only createChat writes a chat
record, and only postMessage rewrites one, touching just its message list. -/
theorem chat_participants_immutable (s : Store) (op : Op) (c : Nat) (ch : Chat)
    (hfresh : freshFor s op = true) (hc : alookup c s.chats = some ch) :
    ∃ ch2, alookup c (applyOp s op).chats = some ch2 ∧
      ch2.participants = ch.participants := by
  cases op with
  | register uname pw newId =>
    refine ⟨ch, ?_, rfl⟩
    show alookup c (registerUser s uname pw newId).2.chats = some ch
    rw [registerUser_chats]
    exact hc
  | sendFR a uname =>
    refine ⟨ch, ?_, rfl⟩
    show alookup c (sendFriendRequest s a uname).2.chats = some ch
    rw [sendFriendRequest_chats]
    exact hc
  | removeFr a uname =>
    refine ⟨ch, ?_, rfl⟩
    show alookup c (removeFriend s a uname).2.chats = some ch
    rw [removeFriend_chats]
    exact hc
  | acceptFR a uname =>
    refine ⟨ch, ?_, rfl⟩
    show alookup c (acceptFriendRequest s a uname).2.chats = some ch
    rw [acceptFriendRequest_chats]
    exact hc
  | rejectFR a uname =>
    refine ⟨ch, ?_, rfl⟩
    show alookup c (rejectFriendRequest s a uname).2.chats = some ch
    rw [rejectFriendRequest_chats]
    exact hc
  | mkChat r ps newId =>
    exact createChat_chats s r ps newId c ch (of_decide_eq_true hfresh) hc
  | mkGroup nm ps newId =>
    refine ⟨ch, ?_, rfl⟩
    show alookup c (createGroup s nm ps newId).2.chats = some ch
    rw [createGroup_chats]
    exact hc
  | addMember actor groupId userId =>
    refine ⟨ch, ?_, rfl⟩
    show alookup c (addGroupMember s actor groupId userId).2.chats = some ch
    rw [addGroupMember_chats]
    exact hc
  | removeMember actor groupId userId =>
    refine ⟨ch, ?_, rfl⟩
    show alookup c (removeGroupMember s actor groupId userId).2.chats = some ch
    rw [removeGroupMember_chats]
    exact hc
  | postMsg a content chat group newId =>
    exact postMessage_chats s a content chat group newId c ch hc
  | setRead messageId isRead =>
    refine ⟨ch, ?_, rfl⟩
    show alookup c (setReadStatus s messageId isRead).2.chats = some ch
    rw [setReadStatus_chats]
    exact hc

/-- C8 witness: creating another chat (id 11) and posting a message into chat
10 both leave chat 10's participant set [1, 2] intact in the demo store. -/
theorem chat_participants_immutable_witness :
    (∃ ch2, alookup 10 (applyOp s0 (.mkChat 1 [1] 11)).chats = some ch2 ∧
      ch2.participants = demoChat.participants) ∧
    (∃ ch2, alookup 10 (applyOp s0 (.postMsg 1 "hi" (some 10) none 30)).chats = some ch2 ∧
      ch2.participants = demoChat.participants) :=
  ⟨chat_participants_immutable s0 (.mkChat 1 [1] 11) 10 demoChat (by decide) rfl,
   chat_participants_immutable s0 (.postMsg 1 "hi" (some 10) none 30) 10 demoChat (by decide) rfl⟩

end PeopleSync
